import Mathlib

/-!
Verification of the particle filter in src/particle_filter.cpp of the
CarND Kidnapped Vehicle project against its specification.

Embedding conventions: C++ double values are modelled by an arbitrary
linear ordered field; the math.h functions used by the code (sin, cos, exp)
and the constant M_PI are abstracted into an operations record that the
theorems instantiate with the exact real functions. Random draws from the
standard library distributions are injected values: a draw from
normal_distribution(m, s) is m + s * z for an injected standard normal
value z, and a draw from discrete_distribution is an injected index.
Code whose C++ behavior is undefined (dereferencing the begin iterator of
an empty vector) is modelled as Option.none.
-/

namespace PF

/-- Operations of math.h used by the filter, abstracted so that the
embedding stays a computable function of them; the theorems instantiate
them with Real.sin, Real.cos, Real.exp and Real.pi. -/
structure TrigOps (α : Type) where
  sin : α → α
  cos : α → α
  exp : α → α
  pi : α

/-- Landmark of the map, as in the single_landmark_s struct used through
the fields x_f and y_f by particle_filter.cpp (the header with the struct
is outside the sources; fields are modelled from usage). -/
structure Landmark (α : Type) where
  id_i : Int
  x_f : α
  y_f : α

/-- Observation in the vehicle frame, as in the LandmarkObs struct used
through the fields x and y by particle_filter.cpp. -/
structure LandmarkObs (α : Type) where
  id : Int
  x : α
  y : α

/-- Particle of the filter population, with the fields particle_filter.cpp
reads and writes: pose, weight and the three diagnostic lists. -/
structure Particle (α : Type) where
  x : α
  y : α
  theta : α
  weight : α
  associations : List Int
  sense_x : List α
  sense_y : List α

variable {α : Type} [LinearOrderedField α]

/-- Number of particles set by ParticleFilter::init. -/
def num_particles : Nat := 100

/-- ParticleFilter::init: the population is resized to num_particles and
every particle pose is drawn from the three normal distributions centred
at the initial estimate; the draw from normal_distribution(m, s) is
modelled as m + s * z with z the injected standard normal value of that
particle. Every weight starts at 1 and the diagnostic lists start empty. -/
def init (x y theta : α) (std : α × α × α) (z : Nat → α × α × α) : List (Particle α) :=
  (List.range num_particles).map fun i =>
    { x := x + std.1 * (z i).1
      y := y + std.2.1 * (z i).2.1
      theta := theta + std.2.2 * (z i).2.2
      weight := 1
      associations := []
      sense_x := []
      sense_y := [] }

/-- Update of one particle inside ParticleFilter::prediction: the branch on
fabs(yaw_rate) > 1E-6 selects the arc update, otherwise the straight line
update; afterwards the injected process noise std_pos * z is added to each
coordinate. -/
def predictParticle (ops : TrigOps α) (delta_t : α) (std_pos : α × α × α)
    (velocity yaw_rate : α) (z : α × α × α) (p : Particle α) : Particle α :=
  if abs yaw_rate > 1 / 1000000 then
    { p with
      x := p.x + velocity * (ops.sin (p.theta + yaw_rate * delta_t) - ops.sin p.theta) / yaw_rate
          + std_pos.1 * z.1
      y := p.y + velocity * (ops.cos (p.theta + yaw_rate * delta_t) - ops.cos p.theta) / yaw_rate
          + std_pos.2.1 * z.2.1
      theta := p.theta + yaw_rate * delta_t + std_pos.2.2 * z.2.2 }
  else
    { p with
      x := p.x + velocity * delta_t * ops.cos p.theta + std_pos.1 * z.1
      y := p.y + velocity * delta_t * ops.sin p.theta + std_pos.2.1 * z.2.1
      theta := p.theta + yaw_rate * delta_t + std_pos.2.2 * z.2.2 }

/-- ParticleFilter::prediction: every particle of the population is updated
in place; the i-th particle consumes the i-th injected noise triple. -/
def prediction (ops : TrigOps α) (delta_t : α) (std_pos : α × α × α)
    (velocity yaw_rate : α) (z : Nat → α × α × α) (particles : List (Particle α)) :
    List (Particle α) :=
  particles.mapIdx fun i p => predictParticle ops delta_t std_pos velocity yaw_rate (z i) p

/-- ParticleFilter::dataAssociation has an empty body in the source (a
stubbed TODO hook): it reads nothing and writes nothing, so the embedding
returns the by-reference observations and the filter state unchanged. -/
def dataAssociation (predicted : List (LandmarkObs α)) (observations : List (LandmarkObs α))
    (particles : List (Particle α)) (weights : List α) :
    List (LandmarkObs α) × List (Particle α) × List α :=
  (observations, particles, weights)

/-- Squared Euclidean distance from the query point to a landmark, as
computed inline in the loop of findNearestNeighbour. -/
def sqDist (x y : α) (lm : Landmark α) : α :=
  (x - lm.x_f) * (x - lm.x_f) + (y - lm.y_f) * (y - lm.y_f)

/-- Loop body of findNearestNeighbour: the state is the pair of the running
minimum distance and the current candidate; a landmark replaces the
candidate only when its distance is strictly smaller than the minimum. -/
def fnnStep (x y : α) (st : α × Landmark α) (lm : Landmark α) : α × Landmark α :=
  if sqDist x y lm < st.1 then (sqDist x y lm, lm) else st

/-- findNearestNeighbour: minDist starts at the constant 1E9, the candidate
starts at the first landmark, and the loop runs over the whole list. On an
empty map the C++ dereferences the begin iterator of an empty vector, which
is undefined behavior, modelled here as none. -/
def findNearestNeighbour (x y : α) (map : List (Landmark α)) : Option (Landmark α) :=
  match map with
  | [] => none
  | l0 :: rest => some (((l0 :: rest).foldl (fnnStep x y) (1000000000, l0)).2)

/-- Map frame x coordinate of an observation under a particle pose, as
computed for x_map in ParticleFilter::updateWeights. -/
def transformedX (ops : TrigOps α) (p : Particle α) (obs : LandmarkObs α) : α :=
  p.x + ops.cos p.theta * obs.x - ops.sin p.theta * obs.y

/-- Map frame y coordinate of an observation under a particle pose, as
computed for y_map in ParticleFilter::updateWeights. -/
def transformedY (ops : TrigOps α) (p : Particle α) (obs : LandmarkObs α) : α :=
  p.y + ops.sin p.theta * obs.x + ops.cos p.theta * obs.y

/-- Per observation factor P of updateWeights, with the same
parenthesisation as the C++ expression: the first summand of the exponent
evaluates left to right as dx * dx / 2 * sx / sigX2 and the second summand
is dy * dy / sigY2. -/
def codeObsWeight (ops : TrigOps α) (sx sy dx dy : α) : α :=
  let sigX2 := sx * sx
  let sigY2 := sy * sy
  ops.exp (-(dx * dx / 2 * sx / sigX2 + dy * dy / sigY2)) / (2 * ops.pi * sx * sy)

/-- Modelled from the spec: the bivariate Gaussian density
exp (-(dx * dx / (2 * sx * sx) + dy * dy / (2 * sy * sy))) / (2 * pi * sx * sy)
that the specification states for the per observation factor; declared only
to compare with codeObsWeight. -/
def specObsDensity (ops : TrigOps α) (sx sy dx dy : α) : α :=
  ops.exp (-(dx * dx / (2 * (sx * sx)) + dy * dy / (2 * (sy * sy)))) / (2 * ops.pi * sx * sy)

/-- Contribution of one observation inside the updateWeights loops:
transform the observation, match it with findNearestNeighbour, then
evaluate the factor P; none exactly when the landmark map is empty. -/
def obsFactor (ops : TrigOps α) (std_landmark : α × α) (map : List (Landmark α))
    (p : Particle α) (obs : LandmarkObs α) : Option α :=
  (findNearestNeighbour (transformedX ops p obs) (transformedY ops p obs) map).map
    fun lm => codeObsWeight ops std_landmark.1 std_landmark.2
      (transformedX ops p obs - lm.x_f) (transformedY ops p obs - lm.y_f)

/-- Weight of one particle after updateWeights: reset to 1, then multiplied
by the factor of every observation in order. -/
def particleWeight (ops : TrigOps α) (std_landmark : α × α)
    (observations : List (LandmarkObs α)) (map : List (Landmark α))
    (p : Particle α) : Option α :=
  observations.foldl
    (fun w obs => Option.bind w fun wv => (obsFactor ops std_landmark map p obs).map fun f => wv * f)
    (some 1)

/-- Effect of updateWeights on one particle: only the weight changes. -/
def updateWeightsParticle (ops : TrigOps α) (std_landmark : α × α)
    (observations : List (LandmarkObs α)) (map : List (Landmark α))
    (p : Particle α) : Option (Particle α) :=
  (particleWeight ops std_landmark observations map p).map fun w => { p with weight := w }

/-- ParticleFilter::updateWeights: every particle weight is recomputed and
the cached weight vector is rebuilt from the new particle weights. The
sensor_range argument is accepted and never read, as in the source. -/
def updateWeights (ops : TrigOps α) (sensor_range : α) (std_landmark : α × α)
    (observations : List (LandmarkObs α)) (map : List (Landmark α))
    (particles : List (Particle α)) : Option (List (Particle α) × List α) :=
  (particles.mapM (updateWeightsParticle ops std_landmark observations map)).map
    fun ps => (ps, ps.map fun q => q.weight)

/-- Default constructed particle, used only to totalise the list indexing in
resample (the C++ indexing particles[k] presumes k in range). -/
def dfltParticle : Particle α := ⟨0, 0, 0, 0, [], [], []⟩

/-- ParticleFilter::resample: a new population of the same size whose i-th
slot is a copy of particles[draw i]; the index drawn from
discrete_distribution over the weight vector is injected as the function
draw, and the weights argument only feeds that distribution in the C++, so
the embedding carries it in the signature and reads it nowhere. -/
def resample (draw : Nat → Nat) (particles : List (Particle α)) (weights : List α) :
    List (Particle α) :=
  (List.range particles.length).map fun i => particles.getD (draw i) dfltParticle

/-- ParticleFilter::SetAssociations: overwrites the three diagnostic lists
of the particle. -/
def SetAssociations (p : Particle α) (assoc : List Int) (sx sy : List α) : Particle α :=
  { p with associations := assoc, sense_x := sx, sense_y := sy }

/-- Concatenation written by std::copy into an ostream_iterator with a one
space delimiter: every token is followed by one space. Strings are modelled
as lists of characters. -/
def renderDelimited (tokens : List (List Char)) : List Char :=
  tokens.foldl (fun s t => s ++ t ++ [ ' ' ]) []

/-- Subtraction of 1 from a C++ size_t (64 bit unsigned) length, which
wraps around to 2 ^ 64 - 1 when the length is 0. -/
def lengthMinusOne (n : Nat) : Nat :=
  (n + 2 ^ 64 - 1) % 2 ^ 64

/-- std::string::substr(pos, count): throws out_of_range when pos exceeds
the length, otherwise returns the characters from pos on, clamped to at
most count of them (List.take already clamps at the end of the string
exactly as substr does). -/
def cppSubstr (s : List Char) (pos count : Nat) : Except String (List Char) :=
  if pos ≤ s.length then
    Except.ok ((s.drop pos).take count)
  else
    Except.error "out_of_range"

/-- ParticleFilter::getAssociations: streams the ids space separated and
then removes the trailing space with substr(0, length() - 1), where the
subtraction happens on the unsigned size_t. -/
def getAssociations (assoc : List Int) : Except String (List Char) :=
  let s := renderDelimited (assoc.map fun n => (toString n).data)
  cppSubstr s 0 (lengthMinusOne s.length)

/-- ParticleFilter::getSenseCoord: picks sense_x when coord is the string X
and sense_y otherwise, then renders like getAssociations; the ostream float
formatting is abstracted as an injected rendering function. -/
def getSenseCoord (render : α → List Char) (p : Particle α) (coord : List Char) :
    Except String (List Char) :=
  let v := if coord = [ 'X' ] then p.sense_x else p.sense_y
  let s := renderDelimited (v.map render)
  cppSubstr s 0 (lengthMinusOne s.length)

/-- Invariant of the findNearestNeighbour loop: from any starting state the
final running minimum never exceeds the starting one and is a lower bound
for the distance of every processed landmark; moreover either the state is
returned untouched, or the final candidate is a landmark of the list whose
distance realises the final minimum, improves strictly on the starting
minimum, and is preceded only by landmarks at strictly larger distance. -/
theorem fnnFold_spec (x y : α) (ls : List (Landmark α)) (st : α × Landmark α) :
    (ls.foldl (fnnStep x y) st).1 ≤ st.1
    ∧ (∀ l ∈ ls, (ls.foldl (fnnStep x y) st).1 ≤ sqDist x y l)
    ∧ (ls.foldl (fnnStep x y) st = st
      ∨ ∃ pre post, ls = pre ++ (ls.foldl (fnnStep x y) st).2 :: post
        ∧ (ls.foldl (fnnStep x y) st).1 = sqDist x y (ls.foldl (fnnStep x y) st).2
        ∧ (ls.foldl (fnnStep x y) st).1 < st.1
        ∧ ∀ l ∈ pre, (ls.foldl (fnnStep x y) st).1 < sqDist x y l) := by
  induction ls generalizing st with
  | nil => exact ⟨le_refl _, by simp, Or.inl rfl⟩
  | cons l ls ih =>
    have hfold : (l :: ls).foldl (fnnStep x y) st = ls.foldl (fnnStep x y) (fnnStep x y st l) :=
      rfl
    by_cases h : sqDist x y l < st.1
    · have hstep : fnnStep x y st l = (sqDist x y l, l) := if_pos h
      rw [hfold, hstep]
      obtain ⟨ih1, ih2, ih3⟩ := ih (sqDist x y l, l)
      refine ⟨le_trans ih1 (le_of_lt h), ?_, ?_⟩
      · intro l2 hl2
        rcases List.mem_cons.mp hl2 with hrfl | hmem
        · rw [hrfl]; exact ih1
        · exact ih2 l2 hmem
      · right
        rcases ih3 with heq | ⟨pre, post, hdec, hmin, hlt, hpre⟩
        · refine ⟨[], ls, ?_, ?_, ?_, by simp⟩
          · rw [heq]; rfl
          · rw [heq]
          · rw [heq]; exact h
        · refine ⟨l :: pre, post, ?_, hmin, lt_trans hlt h, ?_⟩
          · exact congrArg (fun t => l :: t) hdec
          · intro l2 hl2
            rcases List.mem_cons.mp hl2 with hrfl | hmem
            · rw [hrfl]; exact hlt
            · exact hpre l2 hmem
    · have hstep : fnnStep x y st l = st := if_neg h
      rw [hfold, hstep]
      obtain ⟨ih1, ih2, ih3⟩ := ih st
      refine ⟨ih1, ?_, ?_⟩
      · intro l2 hl2
        rcases List.mem_cons.mp hl2 with hrfl | hmem
        · rw [hrfl]; exact le_trans ih1 (not_lt.mp h)
        · exact ih2 l2 hmem
      · rcases ih3 with heq | ⟨pre, post, hdec, hmin, hlt, hpre⟩
        · exact Or.inl heq
        · refine Or.inr ⟨l :: pre, post, ?_, hmin, hlt, ?_⟩
          · exact congrArg (fun t => l :: t) hdec
          · intro l2 hl2
            rcases List.mem_cons.mp hl2 with hrfl | hmem
            · rw [hrfl]; exact lt_of_lt_of_le hlt (not_lt.mp h)
            · exact hpre l2 hmem

/-- C3 counterexample: with the query point at the origin and both
landmarks at squared distance at least 1E9, findNearestNeighbour keeps its
initial candidate, the first landmark, although the second landmark is
strictly closer, so the associator does not return the closest landmark. -/
theorem C3_counterexample :
    findNearestNeighbour (0 : ℝ) 0 [⟨1, 100000, 0⟩, ⟨2, 40000, 0⟩]
        = some ⟨1, 100000, 0⟩
    ∧ sqDist (0 : ℝ) 0 ⟨2, 40000, 0⟩ < sqDist (0 : ℝ) 0 ⟨1, 100000, 0⟩ := by
  constructor
  · norm_num [findNearestNeighbour, fnnStep, sqDist]
  · norm_num [sqDist]

/-- C3 amended: whenever some landmark lies at squared distance strictly
below 1E9 from the query point, findNearestNeighbour returns the first
landmark of the map achieving the minimal squared distance: its distance is
a lower bound for the whole map and every landmark placed before it in the
map is strictly farther, so later candidates at equal distance never
replace it. -/
theorem C3_nearest_neighbour_first_argmin (x y : ℝ) (map : List (Landmark ℝ))
    (lm : Landmark ℝ) (hmem : lm ∈ map) (hnear : sqDist x y lm < 1000000000) :
    ∃ res pre post, findNearestNeighbour x y map = some res
      ∧ map = pre ++ res :: post
      ∧ (∀ l ∈ map, sqDist x y res ≤ sqDist x y l)
      ∧ (∀ l ∈ pre, sqDist x y res < sqDist x y l) := by
  cases map with
  | nil => simp at hmem
  | cons l0 rest =>
    obtain ⟨h1, h2, h3⟩ := fnnFold_spec x y (l0 :: rest) (1000000000, l0)
    have hR1 : ((l0 :: rest).foldl (fnnStep x y) (1000000000, l0)).1 < 1000000000 :=
      lt_of_le_of_lt (h2 lm hmem) hnear
    rcases h3 with heq | ⟨pre, post, hdec, hmin, hlt, hpre⟩
    · rw [heq] at hR1
      exact absurd hR1 (lt_irrefl _)
    · refine ⟨((l0 :: rest).foldl (fnnStep x y) (1000000000, l0)).2, pre, post, rfl, hdec, ?_, ?_⟩
      · intro l hl
        exact hmin ▸ h2 l hl
      · intro l hl
        exact hmin ▸ hpre l hl

/-- Witness of the amended C3 theorem on a concrete two landmark map. -/
theorem C3_witness :
    ((⟨1, 3, 0⟩ : Landmark ℝ) ∈ [(⟨1, 3, 0⟩ : Landmark ℝ), ⟨2, 0, 4⟩])
    ∧ sqDist (0 : ℝ) 0 ⟨1, 3, 0⟩ < 1000000000
    ∧ ∃ res pre post,
        findNearestNeighbour (0 : ℝ) 0 [⟨1, 3, 0⟩, ⟨2, 0, 4⟩] = some res
        ∧ [(⟨1, 3, 0⟩ : Landmark ℝ), ⟨2, 0, 4⟩] = pre ++ res :: post
        ∧ (∀ l ∈ [(⟨1, 3, 0⟩ : Landmark ℝ), ⟨2, 0, 4⟩], sqDist (0 : ℝ) 0 res ≤ sqDist (0 : ℝ) 0 l)
        ∧ (∀ l ∈ pre, sqDist (0 : ℝ) 0 res < sqDist (0 : ℝ) 0 l) :=
  ⟨by simp, by norm_num [sqDist],
    C3_nearest_neighbour_first_argmin 0 0 [⟨1, 3, 0⟩, ⟨2, 0, 4⟩] ⟨1, 3, 0⟩
      (by simp) (by norm_num [sqDist])⟩

/-- C8: when every landmark of the map lies at squared distance at least
1E9 from the query point, findNearestNeighbour returns the first landmark
whatever the actual closest one is, because the running minimum starts at
the constant 1E9 and no landmark beats it. -/
theorem C8_far_query_returns_first (x y : ℝ) (l0 : Landmark ℝ) (rest : List (Landmark ℝ))
    (hfar : ∀ l ∈ l0 :: rest, (1000000000 : ℝ) ≤ sqDist x y l) :
    findNearestNeighbour x y (l0 :: rest) = some l0 := by
  have hunf : findNearestNeighbour x y (l0 :: rest)
      = some (((l0 :: rest).foldl (fnnStep x y) (1000000000, l0)).2) := rfl
  rw [hunf]
  obtain ⟨h1, h2, h3⟩ := fnnFold_spec x y (l0 :: rest) (1000000000, l0)
  generalize hR : (l0 :: rest).foldl (fnnStep x y) (1000000000, l0) = R at h1 h2 h3 ⊢
  rcases h3 with heq | ⟨pre, post, hdec, hmin, hlt, hpre⟩
  · rw [heq]
  · have hm : R.2 ∈ l0 :: rest := by
      rw [hdec]
      exact List.mem_append_right _ (List.mem_cons_self _ _)
    have hge := hfar _ hm
    rw [← hmin] at hge
    exact absurd hge (not_le.mpr hlt)

/-- Witness of C8: both landmarks are at squared distance at least 1E9 from
the origin, the second one closer than the first, and the first one is
returned. -/
theorem C8_witness :
    (∀ l ∈ [(⟨1, 40000, 0⟩ : Landmark ℝ), ⟨2, 35000, 0⟩], (1000000000 : ℝ) ≤ sqDist 0 0 l)
    ∧ findNearestNeighbour (0 : ℝ) 0 [⟨1, 40000, 0⟩, ⟨2, 35000, 0⟩] = some ⟨1, 40000, 0⟩ :=
  ⟨by rintro l hl; fin_cases hl <;> norm_num [sqDist],
    C8_far_query_returns_first 0 0 _ _ (by rintro l hl; fin_cases hl <;> norm_num [sqDist])⟩

/-- C1: with the particle at the origin, one observation at (0, 1), the
single landmark at the origin and unit deviations, updateWeights multiplies
the weight by exp (-1) / (2 pi), whereas the bivariate Gaussian density of
the specification at the same point is exp (-(1/2)) / (2 pi): the code
divides the x term by 2 sigma_x instead of 2 sigma_x squared and drops the
factor 2 under the y term, and the two values differ. -/
theorem C1_weight_factor_not_gaussian :
    particleWeight (⟨Real.sin, Real.cos, Real.exp, Real.pi⟩ : TrigOps ℝ) (1, 1)
        [⟨1, 0, 1⟩] [⟨1, 0, 0⟩] ⟨0, 0, 0, 1, [], [], []⟩
      = some (Real.exp (-1) / (2 * Real.pi))
    ∧ specObsDensity (⟨Real.sin, Real.cos, Real.exp, Real.pi⟩ : TrigOps ℝ) 1 1 0 1
      = Real.exp (-(1 / 2)) / (2 * Real.pi)
    ∧ Real.exp (-1) / (2 * Real.pi) ≠ Real.exp (-(1 / 2)) / (2 * Real.pi) := by
  refine ⟨?_, ?_, ?_⟩
  · norm_num [particleWeight, obsFactor, transformedX, transformedY,
      findNearestNeighbour, fnnStep, sqDist, codeObsWeight,
      Real.sin_zero, Real.cos_zero]
  · norm_num [specObsDensity]
  · have hlt : Real.exp (-1) < Real.exp (-(1 / 2)) := by
      rw [Real.exp_lt_exp]
      norm_num
    have hpi : (0 : ℝ) < 2 * Real.pi := by positivity
    exact ne_of_lt (div_lt_div_of_pos_right hlt hpi)

/-- C2: at the failing input velocity 1, yaw rate 1, delta_t pi with zero
process noise, the arc branch of prediction moves the particle at the
origin to y = -2, while the claim states the landing point
y = (v/w) * (1 - cos (w * t)) = 2. -/
theorem C2_arc_motion_y_sign :
    (predictParticle (⟨Real.sin, Real.cos, Real.exp, Real.pi⟩ : TrigOps ℝ) Real.pi (0, 0, 0) 1 1
        (0, 0, 0) ⟨0, 0, 0, 1, [], [], []⟩).y = -2
    ∧ (1 : ℝ) / 1 * (1 - Real.cos (1 * Real.pi)) = 2
    ∧ ((-2 : ℝ) ≠ 2) := by
  refine ⟨?_, by norm_num [Real.cos_pi], by norm_num⟩
  have hc : |(1 : ℝ)| > 1 / 1000000 := by norm_num
  simp only [predictParticle, hc, if_true, if_pos]
  norm_num [Real.cos_pi, Real.cos_zero]

/-- C4: updateWeights called with a non empty observation list and an empty
landmark map has no defined result: the C++ dereferences the begin iterator
of an empty vector inside findNearestNeighbour and never surfaces an
InvalidMap error, so the embedding returns none. -/
theorem C4_empty_map_undefined :
    updateWeights (⟨Real.sin, Real.cos, Real.exp, Real.pi⟩ : TrigOps ℝ) 50 (1, 1)
        [⟨1, 0, 1⟩] [] [⟨0, 0, 0, 1, [], [], []⟩] = none := rfl

/-- C5: the code validates no parameter: prediction with delta_t = -1 and
zero noise still applies the straight line update and moves the particle at
the origin to x = -1 instead of failing with InvalidParameter and leaving
the state unchanged. -/
theorem C5_no_parameter_validation :
    (predictParticle (⟨Real.sin, Real.cos, Real.exp, Real.pi⟩ : TrigOps ℝ) (-1) (0, 0, 0) 1 0
        (0, 0, 0) ⟨0, 0, 0, 1, [], [], []⟩).x = -1
    ∧ ((-1 : ℝ) ≠ 0) := by
  refine ⟨?_, by norm_num⟩
  have hc : ¬(|(0 : ℝ)| > 1 / 1000000) := by norm_num
  simp only [predictParticle, hc, if_false, if_neg]
  norm_num [Real.cos_zero]

/-- C7: updateWeights never reads sensor_range, so two calls that differ
only in that argument return the same updated particles and the same
weight vector. -/
theorem C7_sensor_range_unused (ops : TrigOps ℝ) (r1 r2 : ℝ) (std_landmark : ℝ × ℝ)
    (observations : List (LandmarkObs ℝ)) (map : List (Landmark ℝ))
    (particles : List (Particle ℝ)) :
    updateWeights ops r1 std_landmark observations map particles
      = updateWeights ops r2 std_landmark observations map particles := rfl

/-- C9: dataAssociation is a no-op: the observations and the whole filter
state come back unchanged for every input. -/
theorem C9_dataAssociation_noop (predicted observations : List (LandmarkObs ℝ))
    (particles : List (Particle ℝ)) (weights : List ℝ) :
    dataAssociation predicted observations particles weights
      = (observations, particles, weights) := rfl

/-- C10: on empty diagnostic lists both text renderers return the empty
string with no out_of_range failure, although the count argument of substr
is length() - 1 computed on the unsigned size_t of the empty string, which
wraps around to 2 ^ 64 - 1. -/
theorem C10_empty_render_safe (render : ℝ → List Char) (coord : List Char) :
    getAssociations [] = Except.ok []
    ∧ getSenseCoord render ⟨0, 0, 0, 1, [], [], []⟩ coord = Except.ok []
    ∧ lengthMinusOne 0 = 2 ^ 64 - 1 := by
  refine ⟨?_, ?_, rfl⟩
  · simp [getAssociations, cppSubstr, renderDelimited]
  · by_cases h : coord = [ 'X' ] <;>
      simp [getSenseCoord, h, cppSubstr, renderDelimited]

/-- Length is preserved by a successful monadic map over Option. -/
theorem length_of_mapM_option {β γ : Type} (f : β → Option γ) :
    ∀ (l : List β) (l2 : List γ), l.mapM f = some l2 → l2.length = l.length := by
  intro l
  induction l with
  | nil =>
    intro l2 h
    simp only [List.mapM_nil, pure, Option.some.injEq] at h
    exact h ▸ rfl
  | cons b l ih =>
    intro l2 h
    rw [List.mapM_cons] at h
    cases hfb : f b with
    | none => rw [hfb] at h; simp at h
    | some g =>
      rw [hfb] at h
      cases hml : l.mapM f with
      | none => rw [hml] at h; simp at h
      | some gs =>
        rw [hml] at h
        simp only [Option.bind_eq_bind, Option.some_bind, pure, Option.some.injEq] at h
        rw [← h]
        simp [ih gs hml]

/-- C6: the population size is num_particles after init, and prediction,
updateWeights (together with the weight vector it rebuilds) and resample
all keep the population size of their input population. -/
theorem C6_population_size_invariance
    (x y theta : ℝ) (std : ℝ × ℝ × ℝ) (z : Nat → ℝ × ℝ × ℝ)
    (ops : TrigOps ℝ) (delta_t : ℝ) (std_pos : ℝ × ℝ × ℝ) (velocity yaw_rate : ℝ)
    (zp : Nat → ℝ × ℝ × ℝ) (qs : List (Particle ℝ))
    (sensor_range : ℝ) (std_landmark : ℝ × ℝ) (observations : List (LandmarkObs ℝ))
    (map : List (Landmark ℝ)) (ps ps2 : List (Particle ℝ)) (ws2 : List ℝ)
    (draw : Nat → Nat) (rs : List (Particle ℝ)) (wsr : List ℝ)
    (h : updateWeights ops sensor_range std_landmark observations map ps = some (ps2, ws2)) :
    (init x y theta std z).length = num_particles
    ∧ (prediction ops delta_t std_pos velocity yaw_rate zp qs).length = qs.length
    ∧ ps2.length = ps.length
    ∧ ws2.length = ps.length
    ∧ (resample draw rs wsr).length = rs.length := by
  have hup : ps2.length = ps.length ∧ ws2.length = ps.length := by
    rw [updateWeights, Option.map_eq_some'] at h
    obtain ⟨l, hl, hgl⟩ := h
    have hlen := length_of_mapM_option _ ps l hl
    simp only [Prod.mk.injEq] at hgl
    obtain ⟨h1, h2⟩ := hgl
    constructor
    · rw [← h1]; exact hlen
    · rw [← h2]; simp [hlen]
  exact ⟨by simp [init], by simp [prediction], hup.1, hup.2, by simp [resample]⟩

/-- Witness of C6 on a one particle population with no observations. -/
theorem C6_witness :
    (updateWeights (⟨Real.sin, Real.cos, Real.exp, Real.pi⟩ : TrigOps ℝ) 50 (1, 1) []
        [⟨1, 0, 0⟩] [dfltParticle]
      = some ([{ dfltParticle with weight := 1 }], [1]))
    ∧ ((init (0 : ℝ) 0 0 (0, 0, 0) fun _ => (0, 0, 0)).length = num_particles
      ∧ (prediction (⟨Real.sin, Real.cos, Real.exp, Real.pi⟩ : TrigOps ℝ) 1 (0, 0, 0) 0 0
          (fun _ => (0, 0, 0)) []).length = List.length ([] : List (Particle ℝ))
      ∧ List.length [{ dfltParticle with weight := (1 : ℝ) }]
          = List.length ([dfltParticle] : List (Particle ℝ))
      ∧ List.length [(1 : ℝ)] = List.length ([dfltParticle] : List (Particle ℝ))
      ∧ (resample (fun _ => 0) [] ([] : List ℝ)).length = List.length ([] : List (Particle ℝ))) :=
  ⟨rfl,
    C6_population_size_invariance 0 0 0 (0, 0, 0) (fun _ => (0, 0, 0))
      ⟨Real.sin, Real.cos, Real.exp, Real.pi⟩ 1 (0, 0, 0) 0 0 (fun _ => (0, 0, 0)) []
      50 (1, 1) [] [⟨1, 0, 0⟩] [dfltParticle] [{ dfltParticle with weight := 1 }] [1]
      (fun _ => 0) [] [] rfl⟩

end PF
